import Mathlib

/-!
Verification of the checkpoint-sweep driver (`src/save.cpp`).

The program is a single `main` function: for `i = 1000, 2000, …, 47000` it
truncates and rewrites the pointer file
`./log/20210110_190115_BreakoutNoFrameskip-v4/weights/checkpoint` with six
`<<` writes, closes it, runs `system("python main.py --env
BreakoutNoFrameskip-v4 --save " + to_string(i))` (a synchronous wait whose
return value is assigned to the local `a`), and prints `i` with
`cout << i << endl`.  It finishes with `return 0;`.

We embed the program as a small-step construction of an event trace plus an
explicit file-system overlay recording the driver's own writes.  The loop
body is mirrored statement by statement; oracles stand for the environment:
the child's exit status for each index, whether the `open` call succeeds for
each iteration (it can fail, e.g. when the parent directories are missing),
and the value of a stop flag a SIGINT handler would record (the source
installs `signal(SIGINT, sigint)` but never defines `sigint`, and the loop
never reads any flag; the parameter exists so that this independence can be
stated).
-/

namespace Save

/-- The fixed pointer-file path hard-coded in `main` (`src/save.cpp` line 15). -/
def checkpointPath : String := "./log/20210110_190115_BreakoutNoFrameskip-v4/weights/checkpoint"

/-- Observable actions of the driver.  `openTrunc` models
`file.open(path, ios::out | ios::trunc)` succeeding, `writeStr` one `<<`
write to the stream, `closeFile` the flushing `file.close()`, `spawn` the
start of `system(cmd)`, `waitDone` the synchronous return of `system` with
the child's exit status, and `print` the statement `cout << i << endl`
(decimal rendering of `i` followed by a newline on the driver's stdout). -/
inductive Event where
  | openTrunc (path : String)
  | writeStr (path : String) (s : String)
  | closeFile (path : String)
  | spawn (cmd : String)
  | waitDone (status : Int)
  | print (n : Nat)
deriving DecidableEq, Repr

/-- The driver's own file effects, as an overlay: newest entry first. -/
def FS : Type := List (String × String)

/-- Current content of `p` under the overlay `fs` (`none` when the driver
never wrote `p`). -/
def fsGet (fs : FS) (p : String) : Option String :=
  (fs.find? (fun kv => kv.fst == p)).map (fun kv => kv.snd)

/-- Effect of one event on the driver's file overlay: a truncating open
empties the file, a stream write appends, everything else leaves files
unchanged. -/
def fsApply (fs : FS) : Event → FS
  | .openTrunc p => (p, "") :: fs
  | .writeStr p s => (p, ((fsGet fs p).getD "") ++ s) :: fs
  | _ => fs

/-- Driver state: file overlay, event trace so far, and for each `system`
call the command together with the pointer file's content at that moment. -/
structure DState where
  fs : FS
  trace : List Event
  launches : List (String × Option String)

/-- Record one event: extend the trace and update the file overlay. -/
def emit (s : DState) (e : Event) : DState :=
  { s with fs := fsApply s.fs e, trace := s.trace ++ [e] }

/-- The command string built in `src/save.cpp` line 25. -/
def childCmd (i : Nat) : String :=
  "python main.py --env BreakoutNoFrameskip-v4 --save " ++ toString i

/-- One iteration of the `for` loop (`src/save.cpp` lines 13-31), mirrored
statement by statement.  `ok i` tells whether the truncating open succeeds;
on failure the C++ stream enters a fail state, so the six `<<` writes and
the `close` have no effect, but `system` and `cout` still run (the source
checks no error).  The `system` call is recorded as a launch carrying the
pointer file's content at that instant, then `spawn`, the synchronous
`waitDone`, and the `print`. -/
def iterBody (status : Nat → Int) (ok : Nat → Bool) (s : DState) (i : Nat) : DState :=
  let s1 :=
    if ok i then
      emit (emit (emit (emit (emit (emit (emit (emit s
        (.openTrunc checkpointPath))
        (.writeStr checkpointPath "model_checkpoint_path: \"episode_"))
        (.writeStr checkpointPath (toString i)))
        (.writeStr checkpointPath "\" \n"))
        (.writeStr checkpointPath "all_model_checkpoint_paths: \"episode_"))
        (.writeStr checkpointPath (toString i)))
        (.writeStr checkpointPath "\""))
        (.closeFile checkpointPath)
    else s
  let s2 := { s1 with launches := s1.launches ++ [(childCmd i, fsGet s1.fs checkpointPath)] }
  let s3 := emit s2 (.spawn (childCmd i))
  let s4 := emit s3 (.waitDone (status i))
  emit s4 (.print i)

/-- Modelled from the spec: the source installs `signal(SIGINT, sigint)` but
the handler symbol `sigint` is defined nowhere in the repository.  Per the
spec the handler records a stop request; we model the recorded requests as
an oracle giving the flag value that would be observed at the top of the
iteration for each index.  The source loop contains no read of any such
flag, so `loopRun` below ignores this argument entirely. -/
def StopFlag : Type := Nat → Bool

/-- The `for (int i = 1000; i <= 47000; i += 1000)` loop, with fuel bounding
the number of iterations (48 is enough for the 47 iterations performed; the
guard `i ≤ 47000` is the source's loop condition).  The stop-flag oracle is
never consulted, mirroring the absence of any check in the source. -/
def loopRun (status : Nat → Int) (ok : Nat → Bool) (stop : StopFlag) :
    Nat → Nat → DState → DState
  | _, 0, s => s
  | i, b + 1, s =>
    if i ≤ 47000 then loopRun status ok stop (i + 1000) b (iterBody status ok s i) else s

/-- Initial state: no writes by the driver yet, empty trace. -/
def initState : DState := { fs := [], trace := [], launches := [] }

/-- The whole program run (everything `main` does apart from returning 0). -/
def run (status : Nat → Int) (ok : Nat → Bool) (stop : StopFlag) : DState :=
  loopRun status ok stop 1000 48 initState

/-- The value of `return 0;` in `main` (`src/save.cpp` line 33). -/
def mainReturn : Int := 0

/-- The sequence of loop-counter values, by the same recursion as `loopRun`. -/
def loopIndices : Nat → Nat → List Nat
  | _, 0 => []
  | i, b + 1 => if i ≤ 47000 then i :: loopIndices (i + 1000) b else []

/-- The indices the sweep visits. -/
def driverIndices : List Nat := loopIndices 1000 48

/-- The pointer-file text the six writes of an iteration actually produce.
Note the space between the closing quote and the newline on the first line,
coming from the literal `"\" \n"` in the source. -/
def pointerFileText (i : Nat) : String :=
  "model_checkpoint_path: \"episode_" ++ toString i ++ "\" \n" ++
  "all_model_checkpoint_paths: \"episode_" ++ toString i ++ "\""

/-- The pointer-file text as the spec's words describe it (two lines, a
trailing newline on the first line only and no other bytes). -/
def specPointerText (i : Nat) : String :=
  "model_checkpoint_path: \"episode_" ++ toString i ++ "\"\n" ++
  "all_model_checkpoint_paths: \"episode_" ++ toString i ++ "\""

/-- The eight file events of a successful pointer rewrite for index `i`. -/
def fileEvents (i : Nat) : List Event :=
  [.openTrunc checkpointPath,
   .writeStr checkpointPath "model_checkpoint_path: \"episode_",
   .writeStr checkpointPath (toString i),
   .writeStr checkpointPath "\" \n",
   .writeStr checkpointPath "all_model_checkpoint_paths: \"episode_",
   .writeStr checkpointPath (toString i),
   .writeStr checkpointPath "\"",
   .closeFile checkpointPath]

/-- The events one iteration appends to the trace. -/
def iterBlock (status : Nat → Int) (ok : Nat → Bool) (i : Nat) : List Event :=
  (if ok i then fileEvents i else []) ++
    [.spawn (childCmd i), .waitDone (status i), .print i]

/-- Trace of a whole sequence of iterations. -/
def seqTrace (status : Nat → Int) (ok : Nat → Bool) : List Nat → List Event
  | [] => []
  | i :: L => iterBlock status ok i ++ seqTrace status ok L

/-- The path an event touches, if any. -/
def eventPath : Event → Option String
  | .openTrunc p => some p
  | .writeStr p _ => some p
  | .closeFile p => some p
  | _ => none

/-- The indices printed on stdout, read off the trace. -/
def printsOf (tr : List Event) : List Nat :=
  tr.filterMap (fun e => match e with | .print n => some n | _ => none)

/-- Number of truncating opens in a trace. -/
def openCount : List Event → Nat
  | [] => 0
  | .openTrunc _ :: tr => openCount tr + 1
  | _ :: tr => openCount tr

/-- Erase child exit statuses from an event, keeping everything else. -/
def scrubStatus : Event → Event
  | .waitDone _ => .waitDone 0
  | e => e

/-- Status oracle: every child exits 0. -/
def zeroStatus : Nat → Int := fun _ => 0

/-- Open oracle: every open succeeds. -/
def allOk : Nat → Bool := fun _ => true

/-- Stop-flag oracle: no interrupt ever arrives. -/
def noStop : StopFlag := fun _ => false

/-- Open oracle under which exactly the first open (index 1000) fails, e.g.
because the `log/.../weights` directories do not exist yet. -/
def failFirstOpen : Nat → Bool := fun i => decide (1000 < i)

/-- Status oracle: the child for index 2000 exits 1, all others exit 0. -/
def failAt2000 : Nat → Int := fun i => if i = 2000 then 1 else 0

/-- Stop-flag oracle: a stop request is on record from the end of the
iteration for index 2000 onwards (SIGINT arrived while that child ran). -/
def stopAfter2000 : StopFlag := fun i => decide (2000 < i)

/-! ### Characterization of one iteration -/

lemma iterBody_trace (status : Nat → Int) (ok : Nat → Bool) (s : DState) (i : Nat) :
    (iterBody status ok s i).trace = s.trace ++ iterBlock status ok i := by
  cases h : ok i <;>
    simp [iterBody, emit, iterBlock, fileEvents, h]

lemma iterBody_fs_get (status : Nat → Int) (ok : Nat → Bool) (s : DState) (i : Nat) :
    fsGet (iterBody status ok s i).fs checkpointPath =
      if ok i then some (pointerFileText i) else fsGet s.fs checkpointPath := by
  cases h : ok i <;>
    simp [iterBody, emit, fsApply, fsGet, h, pointerFileText, List.find?,
      String.empty_append, String.append_assoc]

lemma iterBody_fs_frame (status : Nat → Int) (ok : Nat → Bool) (s : DState) (i : Nat)
    (q : String) (hq : q ≠ checkpointPath) :
    fsGet (iterBody status ok s i).fs q = fsGet s.fs q := by
  have hbeq : (checkpointPath == q) = false := by
    simp [beq_iff_eq]
    exact fun h => hq h.symm
  cases h : ok i <;>
    simp [iterBody, emit, fsApply, fsGet, h, List.find?, hbeq]

lemma iterBody_launches (status : Nat → Int) (ok : Nat → Bool) (s : DState) (i : Nat) :
    (iterBody status ok s i).launches =
      s.launches ++
        [(childCmd i, if ok i then some (pointerFileText i) else fsGet s.fs checkpointPath)] := by
  cases h : ok i <;>
    simp [iterBody, emit, fsApply, fsGet, h, pointerFileText, List.find?,
      String.empty_append, String.append_assoc]

/-! ### Characterization of the whole loop -/

lemma loopRun_trace (status : Nat → Int) (ok : Nat → Bool) (stop : StopFlag) :
    ∀ (b i : Nat) (s : DState),
      (loopRun status ok stop i b s).trace = s.trace ++ seqTrace status ok (loopIndices i b)
  | 0, i, s => by simp [loopRun, loopIndices, seqTrace]
  | b + 1, i, s => by
    by_cases h : i ≤ 47000
    · simp only [loopRun, loopIndices, h, if_pos]
      rw [loopRun_trace status ok stop b (i + 1000) (iterBody status ok s i),
        iterBody_trace]
      simp [seqTrace]
    · simp [loopRun, loopIndices, h, seqTrace]

lemma loopRun_launches_ok (status : Nat → Int) (stop : StopFlag) :
    ∀ (b i : Nat) (s : DState),
      (loopRun status allOk stop i b s).launches =
        s.launches ++ (loopIndices i b).map (fun j => (childCmd j, some (pointerFileText j)))
  | 0, i, s => by simp [loopRun, loopIndices]
  | b + 1, i, s => by
    by_cases h : i ≤ 47000
    · simp only [loopRun, loopIndices, h, if_pos]
      rw [loopRun_launches_ok status stop b (i + 1000) (iterBody status allOk s i),
        iterBody_launches]
      simp [allOk]
    · simp [loopRun, loopIndices, h]

lemma loopRun_fs_frame (status : Nat → Int) (ok : Nat → Bool) (stop : StopFlag)
    (q : String) (hq : q ≠ checkpointPath) :
    ∀ (b i : Nat) (s : DState),
      fsGet (loopRun status ok stop i b s).fs q = fsGet s.fs q
  | 0, i, s => by simp [loopRun]
  | b + 1, i, s => by
    by_cases h : i ≤ 47000
    · simp only [loopRun, h, if_pos]
      rw [loopRun_fs_frame status ok stop q hq b (i + 1000) (iterBody status ok s i),
        iterBody_fs_frame status ok s i q hq]
    · simp [loopRun, h]

lemma run_trace (status : Nat → Int) (ok : Nat → Bool) (stop : StopFlag) :
    (run status ok stop).trace = seqTrace status ok driverIndices :=
  (loopRun_trace status ok stop 48 1000 initState).trans (List.nil_append _)

lemma run_launches (status : Nat → Int) (stop : StopFlag) :
    (run status allOk stop).launches =
      driverIndices.map (fun j => (childCmd j, some (pointerFileText j))) :=
  (loopRun_launches_ok status stop 48 1000 initState).trans (List.nil_append _)

lemma run_fs_frame (status : Nat → Int) (ok : Nat → Bool) (stop : StopFlag)
    (q : String) (hq : q ≠ checkpointPath) :
    fsGet (run status ok stop).fs q = none :=
  (loopRun_fs_frame status ok stop q hq 48 1000 initState).trans rfl

/-! ### Lemmas about `seqTrace` -/

lemma seqTrace_decomp (status : Nat → Int) (ok : Nat → Bool) {i : Nat} :
    ∀ {L : List Nat}, i ∈ L →
      ∃ pre post, seqTrace status ok L = pre ++ iterBlock status ok i ++ post
  | [], h => absurd h (List.not_mem_nil i)
  | j :: L, h => by
    rcases List.mem_cons.mp h with rfl | h'
    · exact ⟨[], seqTrace status ok L, by simp [seqTrace]⟩
    · obtain ⟨pre, post, hpp⟩ := seqTrace_decomp status ok h'
      exact ⟨iterBlock status ok j ++ pre, post, by simp [seqTrace, hpp]⟩

lemma mem_seqTrace_of_mem_block (status : Nat → Int) (ok : Nat → Bool) {e : Event} {i : Nat}
    (he : e ∈ iterBlock status ok i) :
    ∀ {L : List Nat}, i ∈ L → e ∈ seqTrace status ok L
  | [], h => absurd h (List.not_mem_nil i)
  | j :: L, h => by
    rcases List.mem_cons.mp h with rfl | h'
    · simp [seqTrace, List.mem_append]
      exact Or.inl he
    · simp [seqTrace, List.mem_append]
      exact Or.inr (mem_seqTrace_of_mem_block status ok he h')

lemma mem_block_of_mem_seqTrace (status : Nat → Int) (ok : Nat → Bool) {e : Event} :
    ∀ {L : List Nat}, e ∈ seqTrace status ok L →
      ∃ i, i ∈ L ∧ e ∈ iterBlock status ok i
  | [], h => absurd h (by simp [seqTrace])
  | j :: L, h => by
    rcases List.mem_append.mp (by simpa [seqTrace] using h) with h' | h'
    · exact ⟨j, List.mem_cons_self j L, h'⟩
    · obtain ⟨i, hi, hei⟩ := mem_block_of_mem_seqTrace status ok h'
      exact ⟨i, List.mem_cons_of_mem j hi, hei⟩

lemma printsOf_append (a b : List Event) : printsOf (a ++ b) = printsOf a ++ printsOf b := by
  simp [printsOf]

lemma printsOf_block (status : Nat → Int) (ok : Nat → Bool) (i : Nat) :
    printsOf (iterBlock status ok i) = [i] := by
  cases h : ok i <;> simp [iterBlock, fileEvents, printsOf, h]

lemma printsOf_seqTrace (status : Nat → Int) (ok : Nat → Bool) :
    ∀ L : List Nat, printsOf (seqTrace status ok L) = L
  | [] => by simp [seqTrace, printsOf]
  | j :: L => by
    simp [seqTrace, printsOf_append, printsOf_block, printsOf_seqTrace status ok L]

lemma openCount_append (a b : List Event) : openCount (a ++ b) = openCount a + openCount b := by
  induction a with
  | nil => simp [openCount]
  | cons e a ih =>
    cases e
    all_goals simp [openCount, ih]
    all_goals omega

lemma openCount_block (status : Nat → Int) (ok : Nat → Bool) (i : Nat) :
    openCount (iterBlock status ok i) = if ok i then 1 else 0 := by
  cases h : ok i <;> simp [iterBlock, fileEvents, openCount, h]

lemma openCount_seqTrace (status : Nat → Int) :
    ∀ L : List Nat, openCount (seqTrace status allOk L) = L.length
  | [] => by simp [seqTrace, openCount]
  | j :: L => by
    simp [seqTrace, openCount_append, openCount_block, allOk, openCount_seqTrace status L]
    omega

lemma block_paths (status : Nat → Int) (ok : Nat → Bool) (i : Nat) {e : Event}
    (he : e ∈ iterBlock status ok i) :
    eventPath e = none ∨ eventPath e = some checkpointPath := by
  cases h : ok i
  · rw [iterBlock, h] at he
    simp at he
    rcases he with rfl | rfl | rfl <;> simp [eventPath]
  · rw [iterBlock, h] at he
    simp [fileEvents] at he
    rcases he with rfl | rfl | rfl | rfl | rfl | rfl | rfl | rfl | rfl | rfl | rfl <;>
      simp [eventPath]

lemma scrub_block (status status' : Nat → Int) (ok : Nat → Bool) (i : Nat) :
    (iterBlock status ok i).map scrubStatus = (iterBlock status' ok i).map scrubStatus := by
  cases h : ok i <;> simp [iterBlock, fileEvents, scrubStatus, h]

lemma scrub_seqTrace (status status' : Nat → Int) (ok : Nat → Bool) :
    ∀ L : List Nat,
      (seqTrace status ok L).map scrubStatus = (seqTrace status' ok L).map scrubStatus
  | [] => by simp [seqTrace]
  | j :: L => by
    simp only [seqTrace, List.map_append]
    rw [scrub_block status status' ok j, scrub_seqTrace status status' ok L]

lemma loopRun_launches_prefix (status : Nat → Int) (ok : Nat → Bool) (stop : StopFlag) :
    ∀ (b i : Nat) (s : DState),
      ∃ L, (loopRun status ok stop i b s).launches = s.launches ++ L
  | 0, i, s => ⟨[], by simp [loopRun]⟩
  | b + 1, i, s => by
    by_cases h : i ≤ 47000
    · obtain ⟨L, hL⟩ :=
        loopRun_launches_prefix status ok stop b (i + 1000) (iterBody status ok s i)
      refine ⟨(childCmd i,
        if ok i then some (pointerFileText i) else fsGet s.fs checkpointPath) :: L, ?_⟩
      simp only [loopRun, h, if_pos]
      rw [hL, iterBody_launches]
      simp
    · exact ⟨[], by simp [loopRun, h]⟩

lemma childCmd_split_env (i : Nat) :
    childCmd i =
      ("python main.py " ++ "--env BreakoutNoFrameskip-v4") ++ (" --save " ++ toString i) := by
  rw [← String.append_assoc]
  rfl

lemma childCmd_split_save (i : Nat) :
    childCmd i =
      "python main.py --env BreakoutNoFrameskip-v4 " ++ ("--save " ++ toString i) := by
  rw [← String.append_assoc]
  rfl

lemma spawn_mem_block (status : Nat → Int) (ok : Nat → Bool) (i : Nat) :
    Event.spawn (childCmd i) ∈ iterBlock status ok i := by
  simp [iterBlock]

/-! ### The claims -/

/-- C3: with the default parameters start=1000, step=1000, end=47000, the
controller visits exactly the indices 1000, 2000, …, 47000 — the multiples of
1000 between 1000 and 47000 inclusive — each exactly once (the list is
strictly ascending, hence duplicate-free). -/
theorem c3_sweep_indices :
    driverIndices.Pairwise (· < ·) ∧
      ∀ n : Nat, n ∈ driverIndices ↔ (1000 ≤ n ∧ n ≤ 47000 ∧ n % 1000 = 0) := by
  have hEq : driverIndices = (List.range 47).map (fun k => 1000 * k + 1000) := by decide
  refine ⟨by decide, ?_⟩
  intro n
  rw [hEq, List.mem_map]
  constructor
  · rintro ⟨k, hk, rfl⟩
    have hk47 : k < 47 := List.mem_range.mp hk
    omega
  · rintro ⟨h1, h2, h3⟩
    refine ⟨(n - 1000) / 1000, List.mem_range.mpr ?_, ?_⟩ <;> omega

/-- C1: in every iteration of the sweep, the pointer file is opened with
truncation, fully written, and closed — the flushing `file.close()` — as a
contiguous block of events strictly before the child for that index is
spawned, and the synchronous wait for that child follows the spawn
immediately, so every event of a later iteration (in particular the next
truncating open of the pointer file) occurs only after the child has run to
completion. -/
theorem c1_pointer_before_child (status : Nat → Int) (stop : StopFlag) (i : Nat)
    (hi : i ∈ driverIndices) :
    ∃ pre post, (run status allOk stop).trace =
      pre ++ fileEvents i ++
        Event.spawn (childCmd i) :: Event.waitDone (status i) :: Event.print i :: post := by
  obtain ⟨pre, post, hpp⟩ := seqTrace_decomp status allOk (L := driverIndices) hi
  refine ⟨pre, post, ?_⟩
  rw [run_trace, hpp]
  simp [iterBlock, allOk]

/-- Witness for C1: the concrete index 1000 with the all-zero status oracle. -/
theorem c1_witness :
    1000 ∈ driverIndices ∧
      ∃ pre post, (run zeroStatus allOk noStop).trace =
        pre ++ fileEvents 1000 ++
          Event.spawn (childCmd 1000) :: Event.waitDone (zeroStatus 1000) ::
            Event.print 1000 :: post :=
  ⟨by decide, c1_pointer_before_child zeroStatus noStop 1000 (by decide)⟩

/-- C2 counterexample: at the very first child launch (index 1000, all opens
succeeding, every child exiting 0), the pointer file's bytes are
`pointerFileText 1000`, which is not the byte-exact text the claim states —
the source writes the literal `"\" \n"`, putting a space between the closing
quote and the newline at the end of the first line. -/
theorem c2_cex_pointer_bytes :
    (run zeroStatus allOk noStop).launches.head? =
        some (childCmd 1000, some (pointerFileText 1000)) ∧
      pointerFileText 1000 ≠ specPointerText 1000 := by
  constructor
  · rw [run_launches]
    decide
  · decide

/-- C2 amended: immediately before each child launch with index i, the pointer
file's contents are byte-exact the line `model_checkpoint_path: "episode_<i>" `
— with one space after the closing quote — terminated by a newline, followed by
`all_model_checkpoint_paths: "episode_<i>"` with no trailing newline, where
`<i>` is the decimal rendering of i with no padding, and no other bytes. -/
theorem c2_pointer_bytes_amended (status : Nat → Int) (stop : StopFlag) :
    (run status allOk stop).launches =
      driverIndices.map (fun i => (childCmd i, some (pointerFileText i))) :=
  run_launches status stop

/-- C4: the driver never launches a child whose index disagrees with the
pointer file: every recorded launch consists of the command for some swept
index i together with pointer-file contents naming `episode_<i>` for that same
index. -/
theorem c4_launch_agrees_with_pointer (status : Nat → Int) (stop : StopFlag)
    (entry : String × Option String) (hentry : entry ∈ (run status allOk stop).launches) :
    ∃ i, i ∈ driverIndices ∧ entry.1 = childCmd i ∧ entry.2 = some (pointerFileText i) := by
  rw [run_launches] at hentry
  obtain ⟨i, hi, rfl⟩ := List.mem_map.mp hentry
  exact ⟨i, hi, rfl, rfl⟩

/-- Witness for C4: the concrete launch record of index 1000. -/
theorem c4_witness :
    (childCmd 1000, some (pointerFileText 1000)) ∈ (run zeroStatus allOk noStop).launches ∧
      ∃ i, i ∈ driverIndices ∧
        (childCmd 1000, some (pointerFileText 1000)).1 = childCmd i ∧
        (childCmd 1000, some (pointerFileText 1000)).2 = some (pointerFileText i) := by
  have hmem : (childCmd 1000, some (pointerFileText 1000)) ∈
      (run zeroStatus allOk noStop).launches := by
    rw [run_launches]
    decide
  exact ⟨hmem, c4_launch_agrees_with_pointer zeroStatus noStop _ hmem⟩

/-- C5: for every index i of the sweep, a child is spawned whose command line
contains `--env BreakoutNoFrameskip-v4` and ends in `--save <i>`, the decimal
rendering of i appearing verbatim. -/
theorem c5_child_args (status : Nat → Int) (stop : StopFlag) (i : Nat)
    (hi : i ∈ driverIndices) :
    Event.spawn (childCmd i) ∈ (run status allOk stop).trace ∧
      (∃ a b, childCmd i = a ++ "--env BreakoutNoFrameskip-v4" ++ b) ∧
      ∃ c, childCmd i = c ++ ("--save " ++ toString i) := by
  refine ⟨?_, ⟨"python main.py ", " --save " ++ toString i, childCmd_split_env i⟩,
    "python main.py --env BreakoutNoFrameskip-v4 ", childCmd_split_save i⟩
  rw [run_trace]
  exact mem_seqTrace_of_mem_block status allOk (spawn_mem_block status allOk i) hi

/-- Witness for C5: the concrete index 2000 with the all-zero status oracle. -/
theorem c5_witness :
    2000 ∈ driverIndices ∧
      (Event.spawn (childCmd 2000) ∈ (run zeroStatus allOk noStop).trace ∧
        (∃ a b, childCmd 2000 = a ++ "--env BreakoutNoFrameskip-v4" ++ b) ∧
        ∃ c, childCmd 2000 = c ++ ("--save " ++ toString 2000)) :=
  ⟨by decide, c5_child_args zeroStatus noStop 2000 (by decide)⟩

/-- C6 counterexample: when the pointer write for index 1000 fails (the
stream's writes have no effect), the failure is not detected: the child for
index 1000 is launched anyway — with no pointer file in place, as its launch
record shows — and the sweep then proceeds to index 2000 instead of stopping. -/
theorem c6_cex_write_failure_ignored :
    (run zeroStatus failFirstOpen noStop).launches.head? = some (childCmd 1000, none) ∧
      Event.spawn (childCmd 1000) ∈ (run zeroStatus failFirstOpen noStop).trace ∧
      Event.spawn (childCmd 2000) ∈ (run zeroStatus failFirstOpen noStop).trace := by
  refine ⟨?_, ?_, ?_⟩
  · obtain ⟨L, hL⟩ := loopRun_launches_prefix zeroStatus failFirstOpen noStop 47 (1000 + 1000)
      (iterBody zeroStatus failFirstOpen initState 1000)
    have hrun : run zeroStatus failFirstOpen noStop =
        loopRun zeroStatus failFirstOpen noStop (1000 + 1000) 47
          (iterBody zeroStatus failFirstOpen initState 1000) := by
      rw [run]
      rw [loopRun]
      rw [if_pos (by norm_num : (1000 : Nat) ≤ 47000)]
    rw [hrun, hL,
      (by decide :
        (iterBody zeroStatus failFirstOpen initState 1000).launches = [(childCmd 1000, none)])]
    rfl
  · rw [run_trace]
    exact mem_seqTrace_of_mem_block zeroStatus failFirstOpen
      (spawn_mem_block zeroStatus failFirstOpen 1000) (by decide)
  · rw [run_trace]
    exact mem_seqTrace_of_mem_block zeroStatus failFirstOpen
      (spawn_mem_block zeroStatus failFirstOpen 2000) (by decide)

/-- C6 amended: a pointer-write failure is silently ignored: whichever opens
fail, the iteration is not aborted — the child for every visited index is
launched all the same and the sweep runs to the end. -/
theorem c6_write_failure_amended (status : Nat → Int) (ok : Nat → Bool) (stop : StopFlag)
    (i : Nat) (hi : i ∈ driverIndices) :
    Event.spawn (childCmd i) ∈ (run status ok stop).trace := by
  rw [run_trace]
  exact mem_seqTrace_of_mem_block status ok (spawn_mem_block status ok i) hi

/-- Witness for the amended C6: index 1000 under the failing open oracle. -/
theorem c6_witness :
    1000 ∈ driverIndices ∧
      Event.spawn (childCmd 1000) ∈ (run zeroStatus failFirstOpen noStop).trace :=
  ⟨by decide, c6_write_failure_amended zeroStatus failFirstOpen noStop 1000 (by decide)⟩

/-- C7 counterexample: with a child that exits 1 at index 2000 and 0
elsewhere, the driver's whole event trace — file operations, spawned commands,
stdout prints — after erasing only the stored exit-status values is identical
to that of a run in which every child exits 0, so the failure is neither
reported nor recorded anywhere; the sweep does continue (the child for 3000 is
spawned), as the claim's continue part states. -/
theorem c7_cex_no_failure_report :
    ((run failAt2000 allOk noStop).trace.map scrubStatus =
        (run zeroStatus allOk noStop).trace.map scrubStatus) ∧
      Event.spawn (childCmd 3000) ∈ (run failAt2000 allOk noStop).trace := by
  constructor
  · rw [run_trace, run_trace]
    exact scrub_seqTrace failAt2000 zeroStatus allOk driverIndices
  · rw [run_trace]
    exact mem_seqTrace_of_mem_block failAt2000 allOk
      (spawn_mem_block failAt2000 allOk 3000) (by decide)

/-- C7 amended: the exit status of each child is returned to the controller by
the synchronous wait (the source assigns it to the local `a`), but it is never
examined, reported or recorded: the driver's behavior is independent of all
exit statuses up to the stored status values themselves, and the sweep
continues through every index regardless. -/
theorem c7_failure_handling_amended (status status' : Nat → Int) (ok : Nat → Bool)
    (stop stop' : StopFlag) :
    ((run status ok stop).trace.map scrubStatus =
        (run status' ok stop').trace.map scrubStatus) ∧
      ∀ i, i ∈ driverIndices →
        Event.waitDone (status i) ∈ (run status ok stop).trace ∧
          Event.spawn (childCmd i) ∈ (run status ok stop).trace := by
  constructor
  · rw [run_trace, run_trace]
    exact scrub_seqTrace status status' ok driverIndices
  · intro i hi
    rw [run_trace]
    exact ⟨mem_seqTrace_of_mem_block status ok (by simp [iterBlock]) hi,
      mem_seqTrace_of_mem_block status ok (spawn_mem_block status ok i) hi⟩

/-- Witness for the amended C7 at index 1000. -/
theorem c7_witness :
    1000 ∈ driverIndices ∧
      Event.waitDone (zeroStatus 1000) ∈ (run zeroStatus allOk noStop).trace ∧
        Event.spawn (childCmd 1000) ∈ (run zeroStatus allOk noStop).trace :=
  ⟨by decide,
    (c7_failure_handling_amended zeroStatus zeroStatus allOk noStop noStop).2 1000 (by decide)⟩

/-- C8 (code defect): even with a stop request on record for every iteration
after index 2000, the run is event-for-event identical to an uninterrupted
run — in particular the child for index 3000 is still spawned — and `main`
still returns 0; the source's loop never consults any stop flag, and the
handler symbol `sigint` it installs is defined nowhere in the repository. -/
theorem c8_interrupt_ignored :
    (run zeroStatus allOk stopAfter2000).trace = (run zeroStatus allOk noStop).trace ∧
      Event.spawn (childCmd 3000) ∈ (run zeroStatus allOk stopAfter2000).trace ∧
      mainReturn = 0 := by
  refine ⟨?_, ?_, rfl⟩
  · rw [run_trace, run_trace]
  · rw [run_trace]
    exact mem_seqTrace_of_mem_block zeroStatus allOk
      (spawn_mem_block zeroStatus allOk 3000) (by decide)

/-- C9: after each child terminates the driver prints the current index
(`cout << i << endl`: the decimal rendering, then a newline, on the driver's
own stdout) — the print immediately follows the synchronous wait — and over a
full sweep the printed indices are exactly the visited sequence in order. -/
theorem c9_prints_indices (status : Nat → Int) (stop : StopFlag) :
    printsOf (run status allOk stop).trace = driverIndices ∧
      ∀ i, i ∈ driverIndices → ∃ pre post, (run status allOk stop).trace =
        pre ++ Event.waitDone (status i) :: Event.print i :: post := by
  constructor
  · rw [run_trace]
    exact printsOf_seqTrace status allOk driverIndices
  · intro i hi
    obtain ⟨pre, post, hpp⟩ := seqTrace_decomp status allOk (L := driverIndices) hi
    refine ⟨pre ++ fileEvents i ++ [Event.spawn (childCmd i)], post, ?_⟩
    rw [run_trace, hpp]
    simp [iterBlock, allOk]

/-- Witness for C9 at index 1000. -/
theorem c9_witness :
    1000 ∈ driverIndices ∧
      ∃ pre post, (run zeroStatus allOk noStop).trace =
        pre ++ Event.waitDone (zeroStatus 1000) :: Event.print 1000 :: post :=
  ⟨by decide, (c9_prints_indices zeroStatus noStop).2 1000 (by decide)⟩

/-- C10: the only path the driver itself ever writes is the fixed pointer-file
path: every file event of any run touches `checkpointPath` only; the overlay
of the driver's own writes is empty at every other path when the run ends; and
when the opens succeed, the pointer file is truncated exactly once per visited
index. -/
theorem c10_frame (status : Nat → Int) (ok : Nat → Bool) (stop : StopFlag) :
    (∀ e, e ∈ (run status ok stop).trace →
        eventPath e = none ∨ eventPath e = some checkpointPath) ∧
      (∀ q, q ≠ checkpointPath → fsGet (run status ok stop).fs q = none) ∧
      openCount (run status allOk stop).trace = driverIndices.length := by
  refine ⟨?_, ?_, ?_⟩
  · intro e he
    rw [run_trace] at he
    obtain ⟨i, _, hei⟩ := mem_block_of_mem_seqTrace status ok he
    exact block_paths status ok i hei
  · intro q hq
    exact run_fs_frame status ok stop q hq
  · rw [run_trace]
    exact openCount_seqTrace status driverIndices

/-- Witness for C10: a concrete trace event and a concrete foreign path. -/
theorem c10_witness :
    (eventPath (Event.print 1000) = none ∨
        eventPath (Event.print 1000) = some checkpointPath) ∧
      fsGet (run zeroStatus allOk noStop).fs "main.py" = none := by
  constructor
  · refine (c10_frame zeroStatus allOk noStop).1 (Event.print 1000) ?_
    rw [run_trace]
    exact mem_seqTrace_of_mem_block zeroStatus allOk
      (show Event.print 1000 ∈ iterBlock zeroStatus allOk 1000 by simp [iterBlock])
      (by decide)
  · exact (c10_frame zeroStatus allOk noStop).2.1 "main.py" (by decide)

end Save
